import Mathlib

/-!
Verification of the kimi-writer-tau repository against its specification.

The frontend components (`ApprovalModal`, `ConfigPanel`, `ProgressDashboard`,
`Home`, `ProjectBrowser`) are shallowly embedded from the JSX sources as pure
Lean functions.  The backend orchestration core (CritiqueLoopController,
PhaseStateMachine, TokenBudgetManager) is not part of the sources; those
components are modelled from the specification text, and each such definition
carries a doc comment saying so.
-/

namespace KimiWriter

/-! ## ApprovalModal (frontend/src/components/ApprovalModal.jsx)

`handleApprove` / `handleReject` build the decision object submitted through
the modal: `{ approved, notes: notes.trim() || undefined }`. -/

/-- JS `String.prototype.trim`: strips leading and trailing whitespace.
Implemented on the character list so that it evaluates by `decide`. -/
def jsTrim (s : String) : String :=
  ⟨((s.data.dropWhile Char.isWhitespace).reverse.dropWhile Char.isWhitespace).reverse⟩

/-- The decision object submitted by the approval modal:
`approved` flag plus optional notes. -/
structure Decision where
  approved : Bool
  notes : Option String
  deriving Repr, DecidableEq

/-- Shared body of `handleApprove` / `handleReject`: JS
`{ approved, notes: notes.trim() || undefined }` — the empty string is falsy,
so a blank trimmed notes field becomes `undefined` (`none`). -/
def makeDecision (approved : Bool) (notes : String) : Decision :=
  { approved := approved
    notes := if jsTrim notes == "" then none else some (jsTrim notes) }

/-- `handleApprove` from ApprovalModal: `onApprove({approved: true, notes: ...})`. -/
def handleApprove (notes : String) : Decision := makeDecision true notes

/-- `handleReject` from ApprovalModal: `onReject({approved: false, notes: ...})`. -/
def handleReject (notes : String) : Decision := makeDecision false notes

/-! `getApprovalInfo` from ApprovalModal: the `files` list shown for each
approval type.  JS renders `chunk_${approvalData?.chunk_number || '?'}.txt`,
where `||` replaces a missing or zero chunk number by `'?'`. -/

/-- JS `approvalData?.chunk_number || '?'`: a missing or zero (falsy) chunk
number displays as `?`. -/
def chunkNumberDisplay : Option Nat → String
  | some n => if n = 0 then "?" else Nat.repr n
  | none => "?"

/-- The `files` field of `getApprovalInfo` in ApprovalModal, for the given
`approvalType` and `approvalData?.chunk_number`. -/
def getApprovalInfoFiles (approvalType : String) (chunkNumber : Option Nat) :
    List String :=
  if approvalType = "plan" then
    [ "summary.txt - Story summary"
    , "dramatis_personae.txt - Character descriptions"
    , "story_structure.txt - Three-act structure"
    , "plot_outline.txt - Chunk-by-chunk outline" ]
  else if approvalType = "chunk" then
    [ "chunk_" ++ chunkNumberDisplay chunkNumber ++ ".txt - Chunk content" ]
  else
    []

/-- The four persisted planning artifacts (README "Generated Output"). -/
def planArtifactNames : List String :=
  ["summary.txt", "dramatis_personae.txt", "story_structure.txt", "plot_outline.txt"]

/-- A display entry for an artifact filename: the filename followed by a
`" - "` separator and a short description. -/
def fileEntry (filename description : String) : String :=
  filename ++ " - " ++ description

/-! ## ProgressDashboard (frontend/src/components/ProgressDashboard.jsx) -/

/-- The four displayed workflow phases (`phases` array in ProgressDashboard). -/
def dashboardPhases : List String :=
  ["PLANNING", "PLAN_CRITIQUE", "WRITING", "WRITE_CRITIQUE"]

/-- JS `Array.prototype.findIndex` semantics: index of the first element
satisfying the predicate, `-1` if none does. -/
def findIndexJs (pred : α → Bool) : List α → Int
  | [] => -1
  | x :: xs =>
      if pred x then 0
      else
        let r := findIndexJs pred xs
        if r = -1 then -1 else r + 1

/-- `getCurrentPhaseIndex` from ProgressDashboard:
`phases.findIndex((p) => p.name === phase)`. -/
def getCurrentPhaseIndex (phase : String) : Int :=
  findIndexJs (fun p => p == phase) dashboardPhases

/-- Step `index` is rendered active iff `index === currentPhaseIndex`. -/
def phaseStepActive (phase : String) (index : Nat) : Bool :=
  (index : Int) == getCurrentPhaseIndex phase

/-- Step `index` is rendered completed iff `index < currentPhaseIndex`. -/
def phaseStepCompleted (phase : String) (index : Nat) : Bool :=
  decide ((index : Int) < getCurrentPhaseIndex phase)

/-- Colour class of the context-usage bar in ProgressDashboard:
`tokenPercentage > 90 ? 'bg-red-600' : tokenPercentage > 75 ?
'bg-yellow-600' : 'bg-blue-600'`. -/
def tokenBarColor (tokenPercentage : ℚ) : String :=
  if 90 < tokenPercentage then "bg-red-600"
  else if 75 < tokenPercentage then "bg-yellow-600"
  else "bg-blue-600"

/-- Width (in percent) of the context-usage bar:
`Math.min(tokenPercentage, 100)`. -/
def tokenBarWidthPercent (tokenPercentage : ℚ) : ℚ :=
  min tokenPercentage 100

/-- Token usage percentage for a usage/limit pair, as the backend reports it
to the dashboard (`usage / limit * 100`). -/
def tokenPercentageOf (usage limit : Nat) : ℚ :=
  (usage : ℚ) / (limit : ℚ) * 100

/-! ## ProjectBrowser (frontend/src/pages/ProjectBrowser.jsx) -/

/-- The fields of a listed project that `handleDelete` touches. -/
structure ProjectRec where
  project_id : String
  project_name : String
  deriving Repr, DecidableEq

/-- The component state that `handleDelete` reads and writes: the projects
list and the id held by the open delete-confirmation dialog (`none` =
dialog closed). -/
structure BrowserState where
  projects : List ProjectRec
  deleteConfirm : Option String
  deriving Repr, DecidableEq

/-- `handleDelete` from ProjectBrowser: awaits `api.deleteProject`; on
success it filters the deleted project out and closes the dialog; on
rejection the `catch` only logs, so no state setter runs. -/
def handleDelete (st : BrowserState) (projectId : String)
    (deleteSucceeds : Bool) : BrowserState :=
  if deleteSucceeds then
    { projects := st.projects.filter (fun p => !(p.project_id == projectId))
      deleteConfirm := none }
  else
    st

/-! ## ConfigPanel (frontend/src/components/ConfigPanel.jsx) -/

/-- The configuration state held by ConfigPanel (its `useState` initial
object lists exactly these fields). -/
structure PanelConfig where
  project_name : String
  theme : String
  model_id : String
  novel_length : String
  custom_word_count : Option Int
  genre : String
  writing_sample_id : Option String
  custom_writing_sample : String
  max_plan_critique_iterations : Int
  max_write_critique_iterations : Int
  require_plan_approval : Bool
  require_chunk_approval : Bool
  deriving Repr, DecidableEq

/-- The per-field error messages recorded by `validate` via `setErrors`. -/
structure PanelErrors where
  project_name : Option String
  theme : Option String
  custom_word_count : Option String
  custom_writing_sample : Option String
  deriving Repr, DecidableEq

/-- `validate` from ConfigPanel: builds the `newErrors` object.  JS
`!config.custom_word_count` is true for `null` (and for `0`, which is also
`< 1000`); the writing-sample check fires only for a non-empty (truthy)
string shorter than 100 characters. -/
def validate (c : PanelConfig) : PanelErrors :=
  { project_name :=
      if jsTrim c.project_name == "" then some "Project name is required" else none
    theme :=
      if jsTrim c.theme == "" then some "Theme is required" else none
    custom_word_count :=
      if c.novel_length = "custom" then
        match c.custom_word_count with
        | none => some "Word count must be at least 1,000 words"
        | some w =>
            if w < 1000 then some "Word count must be at least 1,000 words" else none
      else none
    custom_writing_sample :=
      if c.custom_writing_sample ≠ "" ∧ c.custom_writing_sample.length < 100 then
        some "Writing sample must be at least 100 characters"
      else none }

/-- `validate` returns `Object.keys(newErrors).length === 0`, i.e. no field
has an error recorded. -/
def noErrors (e : PanelErrors) : Bool :=
  e.project_name.isNone && e.theme.isNone &&
    e.custom_word_count.isNone && e.custom_writing_sample.isNone

/-- `handleSubmit` from ConfigPanel: returns early (no `onSave`) when
`validate()` fails, otherwise calls `onSave(config)` with the unchanged
config.  `some c` means `onSave` was called with `c`. -/
def handleSubmit (c : PanelConfig) : Option PanelConfig :=
  if noErrors (validate c) then some c else none

/-- The validation condition as the claim words it: project name and theme
non-blank after trimming, a `custom` length has a word count present and
at least 1000, and a non-empty custom writing sample has at least 100
characters.  Stated from the claim, to be compared with `validate`. -/
def claimLocalValidationPasses (c : PanelConfig) : Bool :=
  (!(jsTrim c.project_name == "")) && (!(jsTrim c.theme == "")) &&
  (if c.novel_length = "custom" then
      match c.custom_word_count with
      | some w => decide (1000 ≤ w)
      | none => false
    else true) &&
  ((c.custom_writing_sample == "") || decide (100 ≤ c.custom_writing_sample.length))

/-! ## Project-creation request bodies (Home.jsx and ConfigPanel.jsx)

The request body sent to `api.createProject` is modelled as an ordered list
of key/value pairs; `undef` stands for a JS `undefined` field, which
`JSON.stringify` drops from the serialized body. -/

/-- A JSON-ish field value; `undef` is dropped by serialization, `null` is
kept. -/
inductive JsonValue where
  | str (s : String)
  | bool (b : Bool)
  | num (n : Int)
  | null
  | undef
  deriving Repr, DecidableEq

/-- A field survives serialization unless it is `undefined`. -/
def jsonDefined : JsonValue → Bool
  | JsonValue.undef => false
  | _ => true

/-- JS `s || undefined` for a string: the empty string is falsy. -/
def strOrUndef (s : String) : JsonValue :=
  if s == "" then JsonValue.undef else JsonValue.str s

/-- The serialized request body contains key `k` iff some defined field has
that key. -/
def hasKey (body : List (String × JsonValue)) (k : String) : Bool :=
  body.any (fun kv => kv.fst == k && jsonDefined kv.snd)

/-- A writing-style card on the Home page. -/
structure StyleCard where
  name : String
  sample : String
  deriving Repr, DecidableEq

/-- Home's `styleCards.find(card => card.sample?.trim())` followed by
`selectedStyle?.sample || undefined`. -/
def selectedStyleSample (cards : List StyleCard) : Option String :=
  match cards.find? (fun card => !(jsTrim card.sample == "")) with
  | some card => if card.sample == "" then none else some card.sample
  | none => none

/-- `handleCreateProject` from Home.jsx: returns `none` when the premise is
blank (no request is made); otherwise the config object literal passed to
`api.createProject`, in source order.  Note that it contains no model
field. -/
def handleCreateProject (premise title genre length : String)
    (styleCards : List StyleCard) (requirePlanApproval requireChunkApproval : Bool)
    (maxPlanCritiqueIterations maxWriteCritiqueIterations : Int) :
    Option (List (String × JsonValue)) :=
  if jsTrim premise == "" then none
  else some
    [ ("project_name", strOrUndef (jsTrim title))
    , ("theme", JsonValue.str (jsTrim premise))
    , ("novel_length",
        if length = "ai_decide" then JsonValue.undef else JsonValue.str length)
    , ("genre", strOrUndef (jsTrim genre))
    , ("custom_writing_sample",
        match selectedStyleSample styleCards with
        | some s => JsonValue.str s
        | none => JsonValue.undef)
    , ("require_plan_approval", JsonValue.bool requirePlanApproval)
    , ("require_chunk_approval", JsonValue.bool requireChunkApproval)
    , ("max_plan_critique_iterations", JsonValue.num maxPlanCritiqueIterations)
    , ("max_write_critique_iterations", JsonValue.num maxWriteCritiqueIterations) ]

/-- The request body produced when ConfigPanel's `onSave(config)` is wired to
`api.createProject`: the whole config object, every field defined (JS `null`
serializes as JSON `null`, keeping the key). -/
def configPanelBody (c : PanelConfig) : List (String × JsonValue) :=
  [ ("project_name", JsonValue.str c.project_name)
  , ("theme", JsonValue.str c.theme)
  , ("model_id", JsonValue.str c.model_id)
  , ("novel_length", JsonValue.str c.novel_length)
  , ("custom_word_count",
      match c.custom_word_count with
      | some w => JsonValue.num w
      | none => JsonValue.null)
  , ("genre", JsonValue.str c.genre)
  , ("writing_sample_id",
      match c.writing_sample_id with
      | some s => JsonValue.str s
      | none => JsonValue.null)
  , ("custom_writing_sample", JsonValue.str c.custom_writing_sample)
  , ("max_plan_critique_iterations", JsonValue.num c.max_plan_critique_iterations)
  , ("max_write_critique_iterations", JsonValue.num c.max_write_critique_iterations)
  , ("require_plan_approval", JsonValue.bool c.require_plan_approval)
  , ("require_chunk_approval", JsonValue.bool c.require_chunk_approval) ]

/-- The configuration fields the data model assigns to a Project (spec §3):
theme, genre, target length, selected model, writing-sample text,
critique-iteration caps, both approval-checkpoint flags. -/
def requiredConfigKeys : List String :=
  [ "theme", "genre", "novel_length", "model_id", "custom_writing_sample"
  , "max_plan_critique_iterations", "max_write_critique_iterations"
  , "require_plan_approval", "require_chunk_approval" ]

/-- A concrete Home-page submission used to examine the request shape. -/
def homeRequestSample : Option (List (String × JsonValue)) :=
  handleCreateProject "A heist in a floating city" "" "" "ai_decide" [] true false 2 2

/-- Whether the sample Home request contains the given key (`true` for every
required key would be needed for the claim). -/
def homeRequestSampleHasKey (k : String) : Bool :=
  match homeRequestSample with
  | some body => hasKey body k
  | none => true

/-! ## TokenBudgetManager (backend, modelled from the spec) -/

/-- Context window hard limit (README "Technical Details": 200,000 tokens). -/
def contextWindowLimit : Nat := 200000

/-- Compression trigger threshold (README "Technical Details": 180,000
tokens, 90% of the limit). -/
def compressionThreshold : Nat := 180000

/-- Modelled from the spec: `TokenBudgetManager.shouldCompress` is backend
code absent from the sources (only the README's constants are present).
Spec §4.4: "`shouldCompress() → bool` (true once usage ≥ trigger threshold,
a configured fraction — e.g., 90% — of the hard limit)". -/
def shouldCompress (usage : Nat) : Bool :=
  compressionThreshold ≤ usage

/-! ## CritiqueLoopController (backend, modelled from the spec) -/

/-- A critic's verdict on the produced artifact: approve, or request a
revision with feedback text. -/
inductive Verdict where
  | approve
  | revise (feedback : String)
  deriving Repr, DecidableEq

/-- Outcome of the critique loop, recording the number of producer/critic
rounds performed; `autoApprovedAtCap` is the distinct forced-pass outcome. -/
inductive LoopOutcome (α : Type) where
  | approved (artifact : α) (rounds : Nat)
  | autoApprovedAtCap (artifact : α) (rounds : Nat)
  deriving Repr, DecidableEq

/-- Number of producer/critic rounds the loop performed. -/
def loopRounds {α : Type} : LoopOutcome α → Nat
  | LoopOutcome.approved _ r => r
  | LoopOutcome.autoApprovedAtCap _ r => r

/-- Whether the loop resolved by forced pass at the iteration cap. -/
def isAutoApprovedAtCap {α : Type} : LoopOutcome α → Bool
  | LoopOutcome.autoApprovedAtCap _ _ => true
  | _ => false

/-- Modelled from the spec: `CritiqueLoopController.runLoop` is backend code
absent from the sources.  Spec §4.2: invoke the producer to produce/revise
the artifact, invoke the critic to judge it; on approval return immediately,
otherwise increment the iteration count, feed the critic's feedback back to
the producer and repeat; at `maxIterations` without approval, auto-approve
with the distinct outcome `auto_approved_at_cap`.  The remaining-round count
is the recursion fuel; round `i` is `maxIterations - fuel`. -/
def runLoopAux {α : Type} (producer : α → String → α) (critic : Nat → α → Verdict)
    (maxIterations : Nat) : Nat → α → String → LoopOutcome α
  | 0, artifact, _ => LoopOutcome.autoApprovedAtCap artifact maxIterations
  | fuel + 1, artifact, feedback =>
      let revised := producer artifact feedback
      match critic (maxIterations - fuel) revised with
      | Verdict.approve => LoopOutcome.approved revised (maxIterations - fuel)
      | Verdict.revise fb => runLoopAux producer critic maxIterations fuel revised fb

/-- Modelled from the spec: entry point of the critique loop (§4.2), starting
at round 1 with empty feedback and `maxIterations` rounds available. -/
def runLoop {α : Type} (producer : α → String → α) (critic : Nat → α → Verdict)
    (artifact : α) (maxIterations : Nat) : LoopOutcome α :=
  runLoopAux producer critic maxIterations maxIterations artifact ""

/-! ## PhaseStateMachine decision handling (backend, modelled from the spec) -/

/-- The five pipeline phases (spec §3). -/
inductive Phase where
  | PLANNING
  | PLAN_CRITIQUE
  | WRITING
  | WRITE_CRITIQUE
  | COMPLETE
  deriving Repr, DecidableEq

/-- Position of a phase in the workflow's total order (spec §3: total order
except the once-per-chunk `WRITING ⇄ WRITE_CRITIQUE` cycle). -/
def phaseIdx : Phase → Nat
  | Phase.PLANNING => 0
  | Phase.PLAN_CRITIQUE => 1
  | Phase.WRITING => 2
  | Phase.WRITE_CRITIQUE => 3
  | Phase.COMPLETE => 4

/-- The pipeline state the approval decision acts on: current phase, chunk
progress, the critique loop's iteration counter and injected feedback, and
whether generation is paused for manual intervention. -/
structure PipelineState where
  phase : Phase
  chunkIndex : Nat
  totalChunks : Nat
  critiqueIteration : Nat
  critiqueFeedback : Option String
  paused : Bool
  deriving Repr, DecidableEq

/-- Modelled from the spec: the PhaseStateMachine's handling of an approval
decision is backend code absent from the sources.  Spec §4.1: on approval,
`PLAN_CRITIQUE → WRITING` and `WRITE_CRITIQUE → WRITING (next chunk) |
COMPLETE`; "A `rejected` decision re-enters `PLAN_CRITIQUE` with the
rejection notes injected as critique feedback, not a phase regression — it
stays inside the same critique loop with an incremented iteration" (same
rule scoped to the chunk at `WRITE_CRITIQUE`). -/
def applyApprovalDecision (s : PipelineState) (d : Decision) : PipelineState :=
  if d.approved then
    match s.phase with
    | Phase.PLAN_CRITIQUE =>
        { s with phase := Phase.WRITING, critiqueIteration := 0,
                 critiqueFeedback := none }
    | Phase.WRITE_CRITIQUE =>
        if s.chunkIndex < s.totalChunks then
          { s with phase := Phase.WRITING, chunkIndex := s.chunkIndex + 1,
                   critiqueIteration := 0, critiqueFeedback := none }
        else
          { s with phase := Phase.COMPLETE }
    | _ => s
  else
    { s with critiqueIteration := s.critiqueIteration + 1,
             critiqueFeedback := some (d.notes.getD "") }

/-! ## Sample values used by witness theorems -/

/-- A fully populated ConfigPanel configuration. -/
def samplePanelConfig : PanelConfig :=
  { project_name := "My Novel", theme := "A quest", model_id := "kimi-k2-thinking",
    novel_length := "novel", custom_word_count := none, genre := "Fantasy",
    writing_sample_id := none, custom_writing_sample := "",
    max_plan_critique_iterations := 2, max_write_critique_iterations := 2,
    require_plan_approval := true, require_chunk_approval := false }

/-- A browser state with two projects and an open delete dialog. -/
def sampleBrowserState : BrowserState :=
  { projects := [⟨"p1", "Alpha"⟩, ⟨"p2", "Beta"⟩], deleteConfirm := some "p1" }

/-! # Theorems -/

/-! ## C1 — critique loop bound and auto-approval at the cap -/

/-- Helper: the recorded round count never exceeds `maxIterations`. -/
theorem runLoopAux_rounds_le {α : Type} (producer : α → String → α)
    (critic : Nat → α → Verdict) (m : Nat) :
    ∀ fuel (artifact : α) (feedback : String),
      loopRounds (runLoopAux producer critic m fuel artifact feedback) ≤ m := by
  intro fuel
  induction fuel with
  | zero => intro a fb; simp [runLoopAux, loopRounds]
  | succ fuel ih =>
      intro a fb
      cases hcv : critic (m - fuel) (producer a fb) with
      | approve => simp [runLoopAux, hcv, loopRounds, Nat.sub_le]
      | revise fb2 => simpa [runLoopAux, hcv] using ih (producer a fb) fb2

/-- Helper: when the critic never approves, the loop ends as
`autoApprovedAtCap` with exactly `maxIterations` rounds recorded. -/
theorem runLoopAux_cap_of_never_approve {α : Type} (producer : α → String → α)
    (critic : Nat → α → Verdict) (m : Nat)
    (h : ∀ i a, critic i a ≠ Verdict.approve) :
    ∀ fuel (artifact : α) (feedback : String),
      isAutoApprovedAtCap (runLoopAux producer critic m fuel artifact feedback) = true ∧
      loopRounds (runLoopAux producer critic m fuel artifact feedback) = m := by
  intro fuel
  induction fuel with
  | zero => intro a fb; simp [runLoopAux, isAutoApprovedAtCap, loopRounds]
  | succ fuel ih =>
      intro a fb
      cases hcv : critic (m - fuel) (producer a fb) with
      | approve => exact absurd hcv (h _ _)
      | revise fb2 => simpa [runLoopAux, hcv] using ih (producer a fb) fb2

/-- C1: for every configured `maxIterations ≥ 1`, `runLoop` performs at most
`maxIterations` producer/critic rounds, and if the critic never approves it
returns after exactly `maxIterations` rounds with the distinct outcome
`auto_approved_at_cap`. -/
theorem critique_loop_bounded {α : Type} (producer : α → String → α)
    (critic : Nat → α → Verdict) (artifact : α) (maxIterations : Nat)
    (_hmax : 1 ≤ maxIterations) :
    loopRounds (runLoop producer critic artifact maxIterations) ≤ maxIterations ∧
    ((∀ i a, critic i a ≠ Verdict.approve) →
      isAutoApprovedAtCap (runLoop producer critic artifact maxIterations) = true ∧
      loopRounds (runLoop producer critic artifact maxIterations) = maxIterations) := by
  refine ⟨runLoopAux_rounds_le producer critic maxIterations maxIterations artifact "", ?_⟩
  intro h
  exact runLoopAux_cap_of_never_approve producer critic maxIterations h
    maxIterations artifact ""

/-- C1 witness: a critic that always requests revision, with cap 2, yields
exactly 2 rounds and the forced-pass outcome. -/
theorem critique_loop_bounded_witness :
    loopRounds (runLoop (fun a _ => a ++ "!") (fun _ _ => Verdict.revise "fix") "draft" 2) ≤ 2 ∧
    isAutoApprovedAtCap
      (runLoop (fun a _ => a ++ "!") (fun _ _ => Verdict.revise "fix") "draft" 2) = true ∧
    loopRounds (runLoop (fun a _ => a ++ "!") (fun _ _ => Verdict.revise "fix") "draft" 2) = 2 := by
  have h := critique_loop_bounded (fun a _ => a ++ "!")
    (fun _ _ => Verdict.revise "fix") "draft" 2 (by decide)
  have h2 := h.2 (by intro i a hc; exact Verdict.noConfusion hc)
  exact ⟨h.1, h2.1, h2.2⟩

/-! ## C2 — compression trigger vs. red-bar condition -/

/-- C2 counterexample: at exactly the 90% threshold (usage 180,000 of
200,000) compression is triggered but the context-usage bar is yellow, not
red — refuting the claim that the display marks usage critical at exactly
90%. -/
theorem red_bar_missing_at_exact_threshold :
    shouldCompress compressionThreshold = true ∧
    tokenPercentageOf compressionThreshold contextWindowLimit = 90 ∧
    tokenBarColor (tokenPercentageOf compressionThreshold contextWindowLimit) ≠
      "bg-red-600" ∧
    tokenBarColor (tokenPercentageOf compressionThreshold contextWindowLimit) =
      "bg-yellow-600" := by
  have hp : tokenPercentageOf compressionThreshold contextWindowLimit = 90 := by
    norm_num [tokenPercentageOf, compressionThreshold, contextWindowLimit]
  have hc : tokenBarColor 90 = "bg-yellow-600" := by norm_num [tokenBarColor]
  refine ⟨by decide, hp, ?_, by rw [hp, hc]⟩
  rw [hp, hc]
  decide

/-- C2 amended: `shouldCompress` is true iff usage ≥ the 180,000-token
threshold, while the context-usage bar is red iff the percentage strictly
exceeds 90 — so at exactly 90% the compressor triggers but the bar is not
red. -/
theorem compress_trigger_and_bar_color (usage : Nat) (p : ℚ) :
    (shouldCompress usage = true ↔ compressionThreshold ≤ usage) ∧
    (tokenBarColor p = "bg-red-600" ↔ 90 < p) := by
  constructor
  · simp [shouldCompress]
  · constructor
    · intro hcol
      by_cases h90 : (90 : ℚ) < p
      · exact h90
      · exfalso
        by_cases h75 : (75 : ℚ) < p
        · unfold tokenBarColor at hcol
          rw [if_neg h90, if_pos h75] at hcol
          exact absurd hcol (by decide)
        · unfold tokenBarColor at hcol
          rw [if_neg h90, if_neg h75] at hcol
          exact absurd hcol (by decide)
    · intro hlt
      unfold tokenBarColor
      rw [if_pos hlt]

/-- C2 witness: above the threshold both the trigger and the red bar fire. -/
theorem compress_trigger_and_bar_color_witness :
    shouldCompress 190000 = true ∧ tokenBarColor 95 = "bg-red-600" :=
  ⟨(compress_trigger_and_bar_color 190000 95).1.mpr
      (by norm_num [compressionThreshold]),
   (compress_trigger_and_bar_color 190000 95).2.mpr (by norm_num)⟩

/-! ## C3 — rejection stays inside the critique loop -/

/-- C3: a rejected approval decision leaves the phase unchanged — no
regression and no pause — re-entering the same critique loop with the
rejection notes injected as critique feedback and an incremented
iteration. -/
theorem rejected_decision_stays_in_critique_loop (s : PipelineState) (d : Decision)
    (h : d.approved = false) :
    (applyApprovalDecision s d).phase = s.phase ∧
    phaseIdx s.phase ≤ phaseIdx (applyApprovalDecision s d).phase ∧
    (applyApprovalDecision s d).critiqueIteration = s.critiqueIteration + 1 ∧
    (applyApprovalDecision s d).critiqueFeedback = some (d.notes.getD "") ∧
    (applyApprovalDecision s d).paused = s.paused := by
  simp [applyApprovalDecision, h]

/-- C3 witness: a concrete rejection at `PLAN_CRITIQUE` keeps the phase,
bumps the iteration and injects the notes. -/
theorem rejected_decision_stays_witness :
    (applyApprovalDecision ⟨Phase.PLAN_CRITIQUE, 0, 3, 1, none, false⟩
        ⟨false, some "needs work"⟩).phase = Phase.PLAN_CRITIQUE ∧
    (applyApprovalDecision ⟨Phase.PLAN_CRITIQUE, 0, 3, 1, none, false⟩
        ⟨false, some "needs work"⟩).critiqueIteration = 2 ∧
    (applyApprovalDecision ⟨Phase.PLAN_CRITIQUE, 0, 3, 1, none, false⟩
        ⟨false, some "needs work"⟩).critiqueFeedback = some "needs work" := by
  have h := rejected_decision_stays_in_critique_loop
    ⟨Phase.PLAN_CRITIQUE, 0, 3, 1, none, false⟩ ⟨false, some "needs work"⟩ rfl
  exact ⟨h.1, h.2.2.1, h.2.2.2.1⟩

/-! ## Small helper lemmas shared by several proofs -/

/-- Boolean string equality agrees with decidable propositional equality. -/
theorem beq_string_eq_decide (s t : String) : (s == t) = decide (s = t) := by
  by_cases h : s = t <;> simp [h]

/-- An integer lower-bound check, phrased through the error option. -/
theorem isNone_if_int_lt (w : Int) (bound : Int) (msg : String) :
    (if w < bound then some msg else none).isNone = decide (bound ≤ w) := by
  rcases lt_or_le w bound with h | h
  · have h2 : ¬ bound ≤ w := by omega
    simp [h, h2]
  · have h2 : ¬ w < bound := by omega
    simp [h, h2]

/-- A natural-number lower-bound check, phrased through the error option. -/
theorem isNone_if_nat_lt (n : Nat) (bound : Nat) (msg : String) :
    (if n < bound then some msg else none).isNone = decide (bound ≤ n) := by
  rcases lt_or_le n bound with h | h
  · have h2 : ¬ bound ≤ n := by omega
    simp [h, h2]
  · have h2 : ¬ n < bound := by omega
    simp [h, h2]

/-! ## C4 — decision shape submitted by ApprovalModal -/

/-- C4: Approve always yields `approved = true`, Reject always `approved =
false`; in both cases `notes` is the trimmed text when non-empty and absent
when the field is blank or whitespace. -/
theorem approval_decision_shape (notes : String) :
    (handleApprove notes).approved = true ∧
    (handleReject notes).approved = false ∧
    (jsTrim notes = "" →
      (handleApprove notes).notes = none ∧ (handleReject notes).notes = none) ∧
    (jsTrim notes ≠ "" →
      (handleApprove notes).notes = some (jsTrim notes) ∧
      (handleReject notes).notes = some (jsTrim notes)) := by
  refine ⟨rfl, rfl, ?_, ?_⟩
  · intro h
    simp [handleApprove, handleReject, makeDecision, h]
  · intro h
    simp [handleApprove, handleReject, makeDecision, beq_iff_eq, h]

/-- C4 witness: non-blank notes are trimmed and kept; whitespace notes are
dropped. -/
theorem approval_decision_shape_witness :
    (handleApprove "  ok  ").notes = some "ok" ∧
    (handleReject "   ").notes = none ∧
    (handleApprove "x").approved = true ∧
    (handleReject "x").approved = false := by
  have h1 := (approval_decision_shape "  ok  ").2.2.2 (by decide)
  have h2 := (approval_decision_shape "   ").2.2.1 (by decide)
  refine ⟨?_, h2.2, (approval_decision_shape "x").1, (approval_decision_shape "x").2.1⟩
  rw [h1.1]
  decide

/-! ## C5 — ConfigPanel validation gates onSave -/

/-- C5: `handleSubmit` calls `onSave` with the unchanged config exactly when
local validation passes (name and theme non-blank after trimming, a custom
length has a word count ≥ 1000, a non-empty custom sample has ≥ 100
characters); otherwise no save happens and a per-field error is recorded. -/
theorem config_panel_submit_iff_valid (c : PanelConfig) :
    handleSubmit c = (if claimLocalValidationPasses c then some c else none) ∧
    noErrors (validate c) = claimLocalValidationPasses c ∧
    (validate c).project_name.isSome = (jsTrim c.project_name == "") ∧
    (validate c).theme.isSome = (jsTrim c.theme == "") ∧
    (validate c).custom_word_count.isSome =
      (decide (c.novel_length = "custom") &&
        (match c.custom_word_count with
         | some w => decide (w < 1000)
         | none => true)) ∧
    (validate c).custom_writing_sample.isSome =
      (!(c.custom_writing_sample == "") &&
        decide (c.custom_writing_sample.length < 100)) := by
  have hkey : noErrors (validate c) = claimLocalValidationPasses c := by
    simp only [noErrors, validate, claimLocalValidationPasses, beq_string_eq_decide]
    by_cases h1 : jsTrim c.project_name = "" <;>
    by_cases h2 : jsTrim c.theme = "" <;>
    by_cases h3 : c.novel_length = "custom" <;>
    by_cases h4 : c.custom_writing_sample = "" <;>
    rcases hw : c.custom_word_count with _ | w <;>
    simp_all [isNone_if_int_lt, isNone_if_nat_lt]
  refine ⟨?_, hkey, ?_, ?_, ?_, ?_⟩
  · rw [handleSubmit, hkey]
  · by_cases h : jsTrim c.project_name = "" <;>
      simp [validate, beq_string_eq_decide, h]
  · by_cases h : jsTrim c.theme = "" <;>
      simp [validate, beq_string_eq_decide, h]
  · rcases hw : c.custom_word_count with _ | w
    · by_cases h3 : c.novel_length = "custom" <;> simp [validate, hw, h3]
    · by_cases h3 : c.novel_length = "custom" <;>
      by_cases h5 : w < 1000 <;>
      simp [validate, hw, h3, h5]
  · by_cases h4 : c.custom_writing_sample = "" <;>
    by_cases h5 : c.custom_writing_sample.length < 100 <;>
    simp [validate, beq_string_eq_decide, h4, h5]

/-! ## C6 — project-creation request fields -/

/-- C6 counterexample: a Home-page submission (blank genre, default length,
no style card) produces a creation request whose body has no model field —
and none of the genre, length or writing-sample fields either — although
all four are among the required configuration fields of the claim. -/
theorem home_request_lacks_model_field :
    homeRequestSample.isSome = true ∧
    "model_id" ∈ requiredConfigKeys ∧
    homeRequestSampleHasKey "model_id" = false ∧
    "genre" ∈ requiredConfigKeys ∧
    homeRequestSampleHasKey "genre" = false ∧
    "novel_length" ∈ requiredConfigKeys ∧
    homeRequestSampleHasKey "novel_length" = false ∧
    "custom_writing_sample" ∈ requiredConfigKeys ∧
    homeRequestSampleHasKey "custom_writing_sample" = false := by
  refine ⟨by decide, by decide, by decide, by decide, by decide, by decide,
    by decide, by decide, by decide⟩

/-- C6 amended: ConfigPanel-path requests carry every configuration field of
the data model (model included); Home-path requests carry the theme, both
approval flags and both critique caps, never carry a model field, and carry
the project name, genre, length and writing sample exactly when those were
provided (non-blank after trimming, an explicit length, a non-blank style
card). -/
theorem creation_request_fields (c : PanelConfig)
    (premise title genre length : String) (cards : List StyleCard)
    (rpa rca : Bool) (mp mw : Int) (hp : ¬ jsTrim premise = "") :
    (∀ k ∈ requiredConfigKeys, hasKey (configPanelBody c) k = true) ∧
    ∃ body,
      handleCreateProject premise title genre length cards rpa rca mp mw = some body ∧
      hasKey body "theme" = true ∧
      hasKey body "require_plan_approval" = true ∧
      hasKey body "require_chunk_approval" = true ∧
      hasKey body "max_plan_critique_iterations" = true ∧
      hasKey body "max_write_critique_iterations" = true ∧
      hasKey body "model_id" = false ∧
      hasKey body "project_name" = !(jsTrim title == "") ∧
      hasKey body "genre" = !(jsTrim genre == "") ∧
      hasKey body "novel_length" = !(length == "ai_decide") ∧
      hasKey body "custom_writing_sample" = (selectedStyleSample cards).isSome := by
  constructor
  · intro k hk
    fin_cases hk <;> rfl
  · have hcond : (jsTrim premise == "") = false := by simp [hp]
    refine ⟨[ ("project_name", strOrUndef (jsTrim title))
            , ("theme", JsonValue.str (jsTrim premise))
            , ("novel_length",
                if length = "ai_decide" then JsonValue.undef else JsonValue.str length)
            , ("genre", strOrUndef (jsTrim genre))
            , ("custom_writing_sample",
                match selectedStyleSample cards with
                | some s => JsonValue.str s
                | none => JsonValue.undef)
            , ("require_plan_approval", JsonValue.bool rpa)
            , ("require_chunk_approval", JsonValue.bool rca)
            , ("max_plan_critique_iterations", JsonValue.num mp)
            , ("max_write_critique_iterations", JsonValue.num mw) ],
          ?_, rfl, rfl, rfl, rfl, rfl, rfl, ?_, ?_, ?_, ?_⟩
    · simp [handleCreateProject, hcond]
    · by_cases ht : jsTrim title = ""
      · rw [ht]
        rfl
      · have hb : (jsTrim title == "") = false := by simp [beq_string_eq_decide, ht]
        have hs : strOrUndef (jsTrim title) = JsonValue.str (jsTrim title) := by
          simp [strOrUndef, hb]
        rw [hs, hb]
        rfl
    · by_cases hg : jsTrim genre = ""
      · rw [hg]
        rfl
      · have hb : (jsTrim genre == "") = false := by simp [beq_string_eq_decide, hg]
        have hs : strOrUndef (jsTrim genre) = JsonValue.str (jsTrim genre) := by
          simp [strOrUndef, hb]
        rw [hs, hb]
        rfl
    · by_cases hl : length = "ai_decide"
      · rw [hl]
        rfl
      · have hb : (length == "ai_decide") = false := by simp [beq_string_eq_decide, hl]
        rw [if_neg hl, hb]
        rfl
    · cases selectedStyleSample cards with
      | none => rfl
      | some s => rfl

/-- C6 witness: the ConfigPanel body carries the model, while a concrete
Home submission makes a request that carries the theme but neither a model
nor a genre field. -/
theorem creation_request_fields_witness :
    hasKey (configPanelBody samplePanelConfig) "model_id" = true ∧
    ∃ body,
      handleCreateProject "A heist in a floating city" "" "" "ai_decide" []
        true false 2 2 = some body ∧
      hasKey body "theme" = true ∧
      hasKey body "model_id" = false ∧
      hasKey body "genre" = false := by
  have h := creation_request_fields samplePanelConfig "A heist in a floating city"
    "" "" "ai_decide" [] true false 2 2 (by decide)
  refine ⟨h.1 "model_id" (by decide), ?_⟩
  obtain ⟨body, hb, hth, _, _, _, _, hm, _, hg, _, _⟩ := h.2
  exact ⟨body, hb, hth, hm, hg.trans (by decide)⟩

/-! ## C7 — files listed by the approval modal -/

/-- C7: a plan approval lists exactly the four planning artifacts, and a
chunk approval exactly the single file `chunk_N.txt` for the chunk under
review. -/
theorem approval_modal_lists_artifacts (n : Nat) (cn : Option Nat) (h : n ≠ 0) :
    getApprovalInfoFiles "plan" cn =
      [ fileEntry "summary.txt" "Story summary"
      , fileEntry "dramatis_personae.txt" "Character descriptions"
      , fileEntry "story_structure.txt" "Three-act structure"
      , fileEntry "plot_outline.txt" "Chunk-by-chunk outline" ] ∧
    getApprovalInfoFiles "chunk" (some n) =
      [ fileEntry ("chunk_" ++ Nat.repr n ++ ".txt") "Chunk content" ] := by
  constructor
  · rfl
  · have hd : chunkNumberDisplay (some n) = Nat.repr n := by
      simp [chunkNumberDisplay, h]
    have hsplit : ".txt - Chunk content" = ".txt" ++ " - " ++ "Chunk content" := by
      decide
    simp only [getApprovalInfoFiles, fileEntry, hd]
    rw [hsplit]
    simp [String.append_assoc]

/-- C7 witness: chunk 3 lists exactly `chunk_3.txt`. -/
theorem approval_modal_lists_artifacts_witness :
    getApprovalInfoFiles "plan" none =
      [ fileEntry "summary.txt" "Story summary"
      , fileEntry "dramatis_personae.txt" "Character descriptions"
      , fileEntry "story_structure.txt" "Three-act structure"
      , fileEntry "plot_outline.txt" "Chunk-by-chunk outline" ] ∧
    getApprovalInfoFiles "chunk" (some 3) = [fileEntry "chunk_3.txt" "Chunk content"] := by
  have h := approval_modal_lists_artifacts 3 none (by decide)
  exact ⟨h.1, h.2.trans (by decide)⟩

/-! ## C8 — unknown phases render no active or completed step -/

/-- JS `findIndex` returns `-1` when no element satisfies the predicate. -/
theorem findIndexJs_eq_neg_one {α : Type} (pred : α → Bool) (l : List α)
    (h : ∀ x ∈ l, pred x = false) : findIndexJs pred l = -1 := by
  induction l with
  | nil => rfl
  | cons x xs ih =>
      have hx : pred x = false := h x (List.mem_cons_self x xs)
      have hxs : findIndexJs pred xs = -1 :=
        ih (fun y hy => h y (List.mem_cons_of_mem x hy))
      simp [findIndexJs, hx, hxs]

/-- C8: for any phase outside the four displayed workflow phases (such as
`COMPLETE`), `getCurrentPhaseIndex` is `-1`, so no step renders active and
none renders completed. -/
theorem unknown_phase_renders_no_steps (phase : String)
    (h : phase ∉ dashboardPhases) :
    getCurrentPhaseIndex phase = -1 ∧
    ∀ index : Nat,
      phaseStepActive phase index = false ∧ phaseStepCompleted phase index = false := by
  simp only [dashboardPhases, List.mem_cons, List.not_mem_nil, or_false, not_or] at h
  obtain ⟨h1, h2, h3, h4⟩ := h
  have hidx : getCurrentPhaseIndex phase = -1 := by
    unfold getCurrentPhaseIndex
    refine findIndexJs_eq_neg_one _ _ ?_
    intro x hx
    fin_cases hx <;>
      simp [beq_string_eq_decide, Ne.symm h1, Ne.symm h2, Ne.symm h3, Ne.symm h4]
  refine ⟨hidx, fun index => ⟨?_, ?_⟩⟩
  · simp only [phaseStepActive, hidx, beq_eq_false_iff_ne, ne_eq]
    omega
  · simp only [phaseStepCompleted, hidx, decide_eq_false_iff_not]
    omega

/-- C8 witness: a finished project (`COMPLETE`) shows all four steps as not
started. -/
theorem unknown_phase_renders_no_steps_witness :
    getCurrentPhaseIndex "COMPLETE" = -1 ∧
    ∀ index : Nat,
      phaseStepActive "COMPLETE" index = false ∧
      phaseStepCompleted "COMPLETE" index = false :=
  unknown_phase_renders_no_steps "COMPLETE" (by decide)

/-! ## C9 — failed delete leaves the browser state untouched -/

/-- C9: when `api.deleteProject` rejects, `handleDelete` leaves the projects
list and the open confirmation dialog unchanged; only a successful delete
removes the project and closes the dialog. -/
theorem delete_failure_preserves_state (st : BrowserState) (projectId : String) :
    handleDelete st projectId false = st ∧
    (handleDelete st projectId true).deleteConfirm = none ∧
    (handleDelete st projectId true).projects =
      st.projects.filter (fun p => !(p.project_id == projectId)) :=
  ⟨rfl, rfl, rfl⟩

/-! ## C10 — token usage bar width is clamped -/

/-- C10: the rendered width of the context-usage bar is
`min(tokenPercentage, 100)`, so it never exceeds 100% of its track. -/
theorem token_bar_width_clamped (p : ℚ) :
    tokenBarWidthPercent p ≤ 100 ∧
    (p ≤ 100 → tokenBarWidthPercent p = p) ∧
    (100 < p → tokenBarWidthPercent p = 100) := by
  unfold tokenBarWidthPercent
  exact ⟨min_le_right _ _, fun h => min_eq_left h, fun h => min_eq_right h.le⟩

/-- C10 witness: at 120% the bar is clamped to 100; at 42% it shows 42. -/
theorem token_bar_width_clamped_witness :
    tokenBarWidthPercent 120 ≤ 100 ∧
    tokenBarWidthPercent 120 = 100 ∧
    tokenBarWidthPercent 42 = 42 :=
  ⟨(token_bar_width_clamped 120).1,
   (token_bar_width_clamped 120).2.2 (by norm_num),
   (token_bar_width_clamped 42).2.1 (by norm_num)⟩

end KimiWriter
